import Mathlib

/-!
Verification development for the kitzy/dns repository.

The repository maintains DNS zones as YAML files and reconciles live provider
state against them.  This file gives a shallow embedding of the decision
logic of the scripts:

* `scripts/cleanup_cloudflare.py` — `load_defined_records` and the
  record-classification loop of `main` (namespace `Cloudflare`);
* `scripts/cleanup_route53.py` — `load_defined_records` and the
  module-level zone loop (namespace `Route53`);
* `scripts/validate_zones.py` — `validate_zone_file` (namespace `Validator`);
* `scripts/security_scan.py` — the full-name construction in
  `DNSSecurityScanner.scan_zone_file` (`scanFullName`).

Network I/O, YAML parsing and report printing are outside the embedding: the
functions here take the already-parsed data the Python code iterates over.
-/

/-! ## Zone configuration data (the YAML shapes the cleanup scripts read)

The cleanup scripts read a parsed zone document and only access the fields
below; the `tunnel` mapping of a record is carried in the model (the validator
reads it) although `load_defined_records` never looks at it.
-/

/-- One entry of the `mx_records` list of a record: `{priority: int, value: str}`. -/
structure MxEntry where
  priority : Int
  value : String
deriving DecidableEq

/-- The `tunnel` mapping of a TUNNEL record: `{name: str, service: str}`. -/
structure TunnelRef where
  name : String
  service : String
deriving DecidableEq

/-- One element of the `records` list of a zone document, with the fields the
cleanup scripts access (`rec["type"]`, `rec["name"]`, `rec.get("values", [])`,
`rec.get("mx_records", [])`, `rec.get("set_identifier")`). -/
structure RecYaml where
  type : String
  name : String
  values : List String := []
  mx_records : List MxEntry := []
  set_identifier : Option String := none
  tunnel : Option TunnelRef := none
deriving DecidableEq

/-- A parsed zone document as the cleanup scripts consume it:
`zone_data["zone_name"]` and `zone_data.get("records", [])`. -/
structure ZoneData where
  zone_name : String
  records : List RecYaml := []
deriving DecidableEq

/-- Python `s.upper()` restricted to ASCII letters (record types and names in
this data model are ASCII), written over the character list so that it
reduces in the kernel. -/
def pyUpper (s : String) : String :=
  String.mk (s.toList.map Char.toUpper)

/-- Python `s.endswith(t)`, written over the character lists so that it
reduces in the kernel. -/
def strEndsWith (s t : String) : Bool :=
  t.toList.isSuffixOf s.toList

/-- FQDN normalization shared verbatim by both cleanup scripts
(`cleanup_cloudflare.py` lines 33–37, `cleanup_route53.py` line 18):
`name` if it equals the zone name or ends with `"." + zone_name`,
otherwise `f"{name}.{zone_name}"`. -/
def resolveFQDN (name zone_name : String) : String :=
  if name == zone_name || strEndsWith name ("." ++ zone_name) then name
  else name ++ "." ++ zone_name

/-- Full-name construction in `security_scan.py`,
`DNSSecurityScanner.scan_zone_file` (lines 320–326): `@` and the zone name
map to the zone name, `*` maps to `"*.{zone_name}"`, anything else is joined
as `f"{record_name}.{zone_name}"`. -/
def scanFullName (record_name zone_name : String) : String :=
  if record_name == zone_name || record_name == "@" then zone_name
  else if record_name == "*" then "*." ++ zone_name
  else record_name ++ "." ++ zone_name

namespace Cloudflare

/-- An identity key as built by `cleanup_cloudflare.py`: a Python tuple
`(fqdn, rtype, priority, content)` for MX records and `(fqdn, rtype, content)`
for every other type.  On the live side `record.get("priority")` and
`record.get("content")` may be absent (`None`), hence the `Option`s; the
defined side always supplies `some`. -/
inductive CFKey where
  | mx (fqdn : String) (rtype : String) (priority : Option Int) (content : Option String)
  | std (fqdn : String) (rtype : String) (content : Option String)
deriving DecidableEq

/-- The keys contributed by one record in `load_defined_records`
(`cleanup_cloudflare.py` lines 27–47): skip NS/SOA, normalize the FQDN, one
key per `mx_records` entry for MX, one key per `values` entry otherwise. -/
def recordKeys (zone_name : String) (rec : RecYaml) : List CFKey :=
  let rtype := pyUpper rec.type
  if rtype == "NS" || rtype == "SOA" then []
  else
    let fqdn := resolveFQDN rec.name zone_name
    if rtype == "MX" then
      rec.mx_records.map (fun mx => CFKey.mx fqdn rtype (some mx.priority) (some mx.value))
    else
      rec.values.map (fun v => CFKey.std fqdn rtype (some v))

/-- `load_defined_records(zone_data, zone_name)` of `cleanup_cloudflare.py`:
the union over the `records` list of the keys of each record.  The Python code
collects them into a set; a list with membership models it. -/
def load_defined_records (zone_data : ZoneData) : List CFKey :=
  zone_data.records.flatMap (recordKeys zone_data.zone_name)

/-- A live DNS record as returned by the Cloudflare API, with the fields the
classification loop of `main` reads: `record["type"]`, `record["name"]`,
`record["id"]`, `record.get("content")`, `record.get("priority")`. -/
structure LiveRecord where
  type : String
  name : String
  id : String
  content : Option String := none
  priority : Option Int := none
deriving DecidableEq

/-- TXT quote stripping in `main` (lines 206–209): when the type is TXT and
the content is a non-empty string that starts and ends with a double quote,
compare `content[1:-1]`; otherwise the content unchanged. -/
def stripTxtQuotes (rtype : String) (content : Option String) : Option String :=
  match content with
  | none => none
  | some c =>
      match c.toList with
      | [] => some c
      | cs@(first :: _) =>
          if rtype == "TXT" && first == '"' && cs.getLast? == some '"' then
            some (String.mk ((cs.drop 1).dropLast))
          else some c

/-- The lookup key `main` builds for a live record (lines 195–211):
`(name, rtype, priority, content)` for MX, `(name, rtype, content)` with the
TXT quote stripping applied for everything else. -/
def liveKey (record : LiveRecord) : CFKey :=
  let rtype := pyUpper record.type
  if rtype == "MX" then
    CFKey.mx record.name rtype record.priority record.content
  else
    CFKey.std record.name rtype (stripTxtQuotes rtype record.content)

/-- The per-record decision of `main` (lines 182–226): NS/SOA live records
are skipped outright; any other live record is deleted exactly when its key
is not in the defined set. -/
def should_delete (defined : List CFKey) (record : LiveRecord) : Bool :=
  let rtype := pyUpper record.type
  if rtype == "NS" || rtype == "SOA" then false
  else if liveKey record ∈ defined then false
  else true

/-- The live records `main` passes to `delete_dns_record`. -/
def toDelete (defined : List CFKey) (existing_records : List LiveRecord) : List LiveRecord :=
  existing_records.filter (fun r => should_delete defined r)

/-- The live records `main` leaves in place because their key matched a
defined record (the classification the spec calls `satisfied`): non-NS/SOA records
whose key is found in the defined set. -/
def satisfied (defined : List CFKey) (existing_records : List LiveRecord) : List LiveRecord :=
  existing_records.filter (fun r =>
    !(pyUpper r.type == "NS" || pyUpper r.type == "SOA") && decide (liveKey r ∈ defined))

end Cloudflare

namespace Route53

/-- `load_defined_records(zone_data, zone_name)` of `cleanup_route53.py`
(lines 11–21): skip NS/SOA, normalize the FQDN, one key
`(fqdn, rtype, set_identifier)` per record — record content never enters
the key. -/
def load_defined_records (zone_data : ZoneData) : List (String × String × Option String) :=
  zone_data.records.flatMap (fun rec =>
    let rtype := pyUpper rec.type
    if rtype == "NS" || rtype == "SOA" then []
    else [(resolveFQDN rec.name zone_data.zone_name, rtype, rec.set_identifier)])

/-- A live Route53 resource record set with the fields the zone loop reads:
`record["Type"]`, `record["Name"]`, `record.get("SetIdentifier")`; the
`resourceRecords` field carries the content/values of the record, which the loop
never inspects. -/
structure LiveRecord where
  recType : String
  recName : String
  setIdentifier : Option String := none
  resourceRecords : List String := []
deriving DecidableEq

/-- Python `record["Name"].rstrip(".")`: drop every trailing dot. -/
def rstripDots (s : String) : String :=
  String.mk ((s.toList.reverse.dropWhile (fun c => c == Char.ofNat 46)).reverse)

/-- Python `.replace("\\052", "*")`: replace every (leftmost-first,
non-overlapping) occurrence of the four-character sequence backslash-0-5-2
by a star. -/
def replaceOctalStar : List Char → List Char
  | '\\' :: '0' :: '5' :: '2' :: rest => '*' :: replaceOctalStar rest
  | c :: rest => c :: replaceOctalStar rest
  | [] => []

/-- The normalized name of a live record (line 44):
`record["Name"].rstrip(".").replace("\\052", "*")`. -/
def liveName (record : LiveRecord) : String :=
  String.mk (replaceOctalStar (rstripDots record.recName).toList)

/-- The lookup key the zone loop builds for a live record (line 46):
`(name, rtype, set_id)`. -/
def liveKey (record : LiveRecord) : String × String × Option String :=
  (liveName record, record.recType, record.setIdentifier)

/-- The per-record decision of the zone loop (lines 40–47): NS/SOA are
skipped; any other record is deleted exactly when its key is not in the
defined set. -/
def should_delete (defined : List (String × String × Option String))
    (record : LiveRecord) : Bool :=
  if record.recType == "NS" || record.recType == "SOA" then false
  else if liveKey record ∈ defined then false
  else true

/-- The live records the loop passes to `change_resource_record_sets` with
action DELETE. -/
def toDelete (defined : List (String × String × Option String))
    (live : List LiveRecord) : List LiveRecord :=
  live.filter (fun r => should_delete defined r)

end Route53

namespace Validator

/-! ## The zone validator (`scripts/validate_zones.py`, `validate_zone_file`)

`validate_zone_file` receives an arbitrary parsed YAML document, so the model
works over a dynamic value type.  YAML mappings are modelled with string keys
(every mapping the repository uses is string-keyed).  Emitted errors and
warnings are modelled as one constructor per `errors.append` /
`warnings.append` site, carrying the data interpolated into the message that
distinguishes separate emissions (record index, mx entry index, tunnel name);
the message text itself carries no further information.  Places where the
Python code would raise an uncaught exception (calling `.upper()` on a
non-string `type` field, hashing an unhashable provider entry) make the model
return `none`: the script dies and reports nothing. -/

/-- A parsed YAML value (`yaml.safe_load` output). -/
inductive YVal where
  | str (s : String)
  | int (n : Int)
  | bool (b : Bool)
  | list (xs : List YVal)
  | dict (entries : List (String × YVal))
  | null

/-- Python `d.get(k)` / `d[k]` on a string-keyed mapping: the first binding of
`k`, if any. -/
def yGet? (v : YVal) (k : String) : Option YVal :=
  match v with
  | YVal.dict entries => entries.lookup k
  | _ => none

/-- Python `k in d`: the key is present (even when its value is `None`). -/
def yHas (v : YVal) (k : String) : Bool :=
  (yGet? v k).isSome

/-- Python `d[k] = val` on an insertion-ordered mapping: replace the first
binding of `k`, or append a new one. -/
def dictSet (entries : List (String × YVal)) (k : String) (val : YVal) :
    List (String × YVal) :=
  match entries with
  | [] => [(k, val)]
  | (k0, v0) :: rest =>
      if k0 == k then (k0, val) :: rest
      else (k0, v0) :: dictSet rest k val

mutual

/-- Python `repr(value)` for YAML-loadable values, as interpolated by
`str()` on containers.  Escaping of special characters inside strings is not
modelled (no claim depends on it). -/
def pyRepr : YVal → String
  | YVal.str s => "\x27" ++ s ++ "\x27"
  | YVal.int n => toString n
  | YVal.bool b => if b then "True" else "False"
  | YVal.null => "None"
  | YVal.list xs => "[" ++ String.intercalate ", " (pyReprList xs) ++ "]"
  | YVal.dict es => "\x7b" ++ String.intercalate ", " (pyReprEntries es) ++ "\x7d"

/-- Helper of `pyRepr` for list elements. -/
def pyReprList : List YVal → List String
  | [] => []
  | x :: xs => pyRepr x :: pyReprList xs

/-- Helper of `pyRepr` for mapping entries. -/
def pyReprEntries : List (String × YVal) → List String
  | [] => []
  | (k, v) :: es => ("\x27" ++ k ++ "\x27: " ++ pyRepr v) :: pyReprEntries es

end

/-- Python `str(value)` (an f-string interpolation): identity on strings,
`repr` otherwise. -/
def pyStr : YVal → String
  | YVal.str s => s
  | v => pyRepr v

/-- Python `isinstance(v, bool)`. -/
def pyIsBool : YVal → Bool
  | YVal.bool _ => true
  | _ => false

/-- Python `isinstance(v, int)`: `bool` is a subclass of `int` in Python. -/
def pyIsInt : YVal → Bool
  | YVal.int _ => true
  | YVal.bool _ => true
  | _ => false

/-- Python `isinstance(v, str)`. -/
def pyIsStr : YVal → Bool
  | YVal.str _ => true
  | _ => false

/-- Whether a YAML value can be put in a Python `set` (hashable). -/
def pyHashable : YVal → Bool
  | YVal.str _ => true
  | YVal.int _ => true
  | YVal.bool _ => true
  | YVal.null => true
  | _ => false

/-- Python `==` between hashable scalars (`True == 1`, `False == 0`). -/
def pyScalarEq : YVal → YVal → Bool
  | YVal.str a, YVal.str b => a == b
  | YVal.int a, YVal.int b => a == b
  | YVal.bool a, YVal.bool b => a == b
  | YVal.bool a, YVal.int b => (if a then (1 : Int) else 0) == b
  | YVal.int a, YVal.bool b => a == (if b then (1 : Int) else 0)
  | YVal.null, YVal.null => true
  | _, _ => false

/-- Python `len(set(xs))` over hashable scalars: the number of
pairwise-distinct elements. -/
def pySetLen (xs : List YVal) : Nat :=
  (xs.foldl (fun seen v => if seen.any (fun w => pyScalarEq v w) then seen else v :: seen) []).length

/-- One constructor per `errors.append` site of `validate_zone_file`, in
source order. -/
inductive VErr where
  | notDict
  | missingZoneName
  | filenameMismatch
  | missingProviderField
  | bothProviderFields
  | providerNotString
  | unsupportedProvider
  | providersNotList
  | providersEmpty
  | providerAtIndexNotString (i : Nat)
  | unsupportedProviderAtIndex (i : Nat)
  | duplicateProviders
  | tunnelsNotDict
  | tunnelConfigNotDict (tunnel_name : String)
  | tunnelMissingId (tunnel_name : String)
  | tunnelIdNotString (tunnel_name : String)
  | missingRecords
  | recordsNotList
  | recordNotObject (i : Nat)
  | tunnelRecordNotCloudflare (i : Nat)
  | missingTunnelField (i : Nat)
  | tunnelFieldNotDict (i : Nat)
  | missingTunnelName (i : Nat)
  | tunnelNameNotString (i : Nat)
  | tunnelNotDefined (i : Nat) (tunnel_name : String)
  | missingTunnelService (i : Nat)
  | tunnelServiceNotString (i : Nat)
  | tunnelServiceBadScheme (i : Nat)
  | proxiedNotBool (i : Nat)
  | proxiedNonProxiable (i : Nat)
  | mxRecordsNotList (i : Nat)
  | mxEntryNotObject (i : Nat) (j : Nat)
  | mxMissingPriority (i : Nat) (j : Nat)
  | mxPriorityNotInt (i : Nat) (j : Nat)
  | mxMissingValue (i : Nat) (j : Nat)
  | mxValueNotString (i : Nat) (j : Nat)
deriving DecidableEq

/-- One constructor per `warnings.append` site of `validate_zone_file`, in
source order. -/
inductive VWarn where
  | tunnelsNotCloudflare
  | tunnelValuesIgnored (i : Nat)
  | tunnelProxiedIgnored (i : Nat)
  | proxiedNotCloudflare (i : Nat)
deriving DecidableEq

/-- `SUPPORTED_PROVIDERS = frozenset(["route53", "cloudflare"])`. -/
def SUPPORTED_PROVIDERS : List String := ["route53", "cloudflare"]

/-- `PROXIABLE_RECORD_TYPES = frozenset(["A", "AAAA", "CNAME"])`. -/
def PROXIABLE_RECORD_TYPES : List String := ["A", "AAAA", "CNAME"]

/-- The scheme whitelist of the `tunnel.service` check (line 178). -/
def allowedSchemes : List String :=
  ["http://", "https://", "tcp://", "udp://", "ssh://", "rdp://", "unix://", "unix+tls://"]

/-- Python `s.startswith(t)`, written over the character lists so that it
reduces in the kernel. -/
def strStartsWith (s t : String) : Bool :=
  t.toList.isPrefixOf s.toList

/-- The `uses_cloudflare` computation (lines 77–81): a string `provider`
field equal to `"cloudflare"`, otherwise membership of `"cloudflare"` in a
list-shaped `providers` field (Python `in`, which is element equality). -/
def usesCloudflare (providerF providersF : Option YVal) : Bool :=
  match providerF with
  | some (YVal.str s) => s == "cloudflare"
  | _ =>
      match providersF with
      | some (YVal.list xs) =>
          xs.any (fun v => match v with
            | YVal.str s => s == "cloudflare"
            | _ => false)
      | _ => false

/-- The `zone_name` checks (lines 63–70): missing field, or filename not
equal to `f"{zone_name}.yml"`. -/
def zoneNameErrs (file_name : String) (zoneNameF : Option YVal) : List VErr :=
  match zoneNameF with
  | none => [VErr.missingZoneName]
  | some z =>
      if file_name == pyStr z ++ ".yml" then [] else [VErr.filenameMismatch]

/-- The provider-field checks (lines 83–110).  `none` models the uncaught
`TypeError` of `set(providers)` when some element is unhashable. -/
def providerErrs (providerF providersF : Option YVal) : Option (List VErr) :=
  if providerF.isNone && providersF.isNone then some [VErr.missingProviderField]
  else if providerF.isSome && providersF.isSome then some [VErr.bothProviderFields]
  else
    match providerF with
    | some p =>
        some (if !(pyIsStr p) then [VErr.providerNotString]
          else match p with
            | YVal.str s => if s ∈ SUPPORTED_PROVIDERS then [] else [VErr.unsupportedProvider]
            | _ => [])
    | none =>
        match providersF with
        | some (YVal.list xs) =>
            if xs.length == 0 then some [VErr.providersEmpty]
            else
              let elemErrs := (xs.enum.map (fun iv =>
                match iv.2 with
                | YVal.str s =>
                    if s ∈ SUPPORTED_PROVIDERS then []
                    else [VErr.unsupportedProviderAtIndex iv.1]
                | _ => [VErr.providerAtIndexNotString iv.1])).flatten
              if xs.all pyHashable then
                some (elemErrs ++
                  (if !(pySetLen xs == xs.length) then [VErr.duplicateProviders] else []))
              else none
        | some _ => some [VErr.providersNotList]
        | none => some []

/-- The zone-local tunnels loop (lines 123–135): accumulate errors per entry
and merge every dict-shaped entry into the tunnel definitions. -/
def tunnelsLoop (defs : List (String × YVal)) :
    List (String × YVal) → List VErr × List (String × YVal)
  | [] => ([], defs)
  | (tunnel_name, tunnel_config) :: rest =>
      match tunnel_config with
      | YVal.dict centries =>
          let entryErrs :=
            match centries.lookup "tunnel_id" with
            | none => [VErr.tunnelMissingId tunnel_name]
            | some tid => if pyIsStr tid then [] else [VErr.tunnelIdNotString tunnel_name]
          let (restErrs, finalDefs) :=
            tunnelsLoop (dictSet defs tunnel_name (YVal.dict centries)) rest
          (entryErrs ++ restErrs, finalDefs)
      | _ =>
          let (restErrs, finalDefs) := tunnelsLoop defs rest
          (VErr.tunnelConfigNotDict tunnel_name :: restErrs, finalDefs)

/-- The `tunnels` section (lines 114–135): merged definitions start from the
global mapping; a zone not using Cloudflare gets a warning and no merge; a
non-dict field is an error; otherwise the per-entry loop runs. -/
def tunnelsSection (global_tunnels : List (String × YVal)) (uses_cloudflare : Bool)
    (tunnelsF : Option YVal) : List VErr × List VWarn × List (String × YVal) :=
  match tunnelsF with
  | none => ([], [], global_tunnels)
  | some t =>
      if !uses_cloudflare then ([], [VWarn.tunnelsNotCloudflare], global_tunnels)
      else
        match t with
        | YVal.dict es =>
            let (errs, defs) := tunnelsLoop global_tunnels es
            (errs, [], defs)
        | _ => ([VErr.tunnelsNotDict], [], global_tunnels)

/-- Python `record.get("type", "").upper()` (line 149): `none` models the
uncaught `AttributeError` when the field is present but not a string. -/
def recordTypeField (entries : List (String × YVal)) : Option String :=
  match (entries.lookup "type").getD (YVal.str "") with
  | YVal.str s => some (pyUpper s)
  | _ => none

/-- The TUNNEL-record branch (lines 153–187): provider requirement, the
`tunnel` mapping with its `name` and `service` checks, and the ignored-field
warnings; the branch ends with `continue`. -/
def tunnelRecordChecks (uses_cloudflare : Bool) (tunnel_definitions : List (String × YVal))
    (i : Nat) (entries : List (String × YVal)) : List VErr × List VWarn :=
  let provErr := if !uses_cloudflare then [VErr.tunnelRecordNotCloudflare i] else []
  let tunnelErrs :=
    match entries.lookup "tunnel" with
    | none => [VErr.missingTunnelField i]
    | some (YVal.dict tentries) =>
        let nameErrs :=
          match tentries.lookup "name" with
          | none => [VErr.missingTunnelName i]
          | some (YVal.str n) =>
              if (tunnel_definitions.lookup n).isSome then []
              else [VErr.tunnelNotDefined i n]
          | some _ => [VErr.tunnelNameNotString i]
        let serviceErrs :=
          match tentries.lookup "service" with
          | none => [VErr.missingTunnelService i]
          | some (YVal.str svc) =>
              if allowedSchemes.any (fun scheme => strStartsWith svc scheme) then []
              else [VErr.tunnelServiceBadScheme i]
          | some _ => [VErr.tunnelServiceNotString i]
        nameErrs ++ serviceErrs
    | some _ => [VErr.tunnelFieldNotDict i]
  let valuesWarn := if (entries.lookup "values").isSome then [VWarn.tunnelValuesIgnored i] else []
  let proxiedWarn := if (entries.lookup "proxied").isSome then [VWarn.tunnelProxiedIgnored i] else []
  (provErr ++ tunnelErrs, valuesWarn ++ proxiedWarn)

/-- The `proxied` checks of a non-TUNNEL record (lines 190–206): non-boolean
is an error; a boolean on a non-Cloudflare zone is a warning; `True` on a
Cloudflare zone with a non-proxiable type is an error. -/
def proxiedChecks (uses_cloudflare : Bool) (i : Nat) (record_type : String)
    (entries : List (String × YVal)) : List VErr × List VWarn :=
  match entries.lookup "proxied" with
  | none => ([], [])
  | some p =>
      if !(pyIsBool p) then ([VErr.proxiedNotBool i], [])
      else if !uses_cloudflare then ([], [VWarn.proxiedNotCloudflare i])
      else if (match p with | YVal.bool b => b | _ => false)
          && !(record_type ∈ PROXIABLE_RECORD_TYPES) then
        ([VErr.proxiedNonProxiable i], [])
      else ([], [])

/-- The inner mx_records entry loop (lines 213–224). -/
def mxEntryChecks (i : Nat) : List (Nat × YVal) → List VErr
  | [] => []
  | (j, mx) :: rest =>
      match mx with
      | YVal.dict mentries =>
          let pErrs :=
            match mentries.lookup "priority" with
            | none => [VErr.mxMissingPriority i j]
            | some p => if pyIsInt p then [] else [VErr.mxPriorityNotInt i j]
          let vErrs :=
            match mentries.lookup "value" with
            | none => [VErr.mxMissingValue i j]
            | some v => if pyIsStr v then [] else [VErr.mxValueNotString i j]
          pErrs ++ vErrs ++ mxEntryChecks i rest
      | _ => VErr.mxEntryNotObject i j :: mxEntryChecks i rest

/-- The MX checks of a record (lines 209–224): only when the type is MX and
`mx_records` is present. -/
def mxChecks (i : Nat) (record_type : String) (entries : List (String × YVal)) : List VErr :=
  if record_type == "MX" then
    match entries.lookup "mx_records" with
    | none => []
    | some (YVal.list mxs) => mxEntryChecks i mxs.enum
    | some _ => [VErr.mxRecordsNotList i]
  else []

/-- The body of the record loop for one record (lines 144–224): non-dict
records error and continue; the type field may crash; TUNNEL records take
their own branch and continue; other records run the proxied and MX checks. -/
def validateRecord (uses_cloudflare : Bool) (tunnel_definitions : List (String × YVal))
    (i : Nat) (record : YVal) : Option (List VErr × List VWarn) :=
  match record with
  | YVal.dict entries =>
      match recordTypeField entries with
      | none => none
      | some record_type =>
          if record_type == "TUNNEL" then
            some (tunnelRecordChecks uses_cloudflare tunnel_definitions i entries)
          else
            let (pErrs, pWarns) := proxiedChecks uses_cloudflare i record_type entries
            some (pErrs ++ mxChecks i record_type entries, pWarns)
  | _ => some ([VErr.recordNotObject i], [])

/-- The record loop (line 144), carrying the enumeration index. -/
def recordsLoop (uses_cloudflare : Bool) (tunnel_definitions : List (String × YVal)) :
    Nat → List YVal → Option (List VErr × List VWarn)
  | _, [] => some ([], [])
  | i, r :: rest => do
      let (e1, w1) ← validateRecord uses_cloudflare tunnel_definitions i r
      let (e2, w2) ← recordsLoop uses_cloudflare tunnel_definitions (i + 1) rest
      some (e1 ++ e2, w1 ++ w2)

/-- The `records` section (lines 138–224). -/
def recordsSection (uses_cloudflare : Bool) (tunnel_definitions : List (String × YVal))
    (recordsF : Option YVal) : Option (List VErr × List VWarn) :=
  match recordsF with
  | none => some ([VErr.missingRecords], [])
  | some (YVal.list rs) => recordsLoop uses_cloudflare tunnel_definitions 0 rs
  | some _ => some ([VErr.recordsNotList], [])

/-- The whole of `validate_zone_file` after a successful YAML load, as a
function of the five top-level lookups the code performs. -/
def validateCore (file_name : String) (global_tunnels : List (String × YVal))
    (zoneNameF providerF providersF tunnelsF recordsF : Option YVal) :
    Option (List VErr × List VWarn) := do
  let zErrs := zoneNameErrs file_name zoneNameF
  let pErrs ← providerErrs providerF providersF
  let uses_cloudflare := usesCloudflare providerF providersF
  let (tErrs, tWarns, tunnel_definitions) :=
    tunnelsSection global_tunnels uses_cloudflare tunnelsF
  let (rErrs, rWarns) ← recordsSection uses_cloudflare tunnel_definitions recordsF
  some (zErrs ++ pErrs ++ tErrs ++ rErrs, tWarns ++ rWarns)

/-- `validate_zone_file(file_path, global_tunnels)` on an already-loaded
document: a non-mapping document short-circuits with one error; a mapping is
processed by `validateCore` over the five fields the function reads. -/
def validate_zone_file (file_name : String) (global_tunnels : List (String × YVal))
    (data : YVal) : Option (List VErr × List VWarn) :=
  match data with
  | YVal.dict _ =>
      validateCore file_name global_tunnels (yGet? data "zone_name") (yGet? data "provider")
        (yGet? data "providers") (yGet? data "tunnels") (yGet? data "records")
  | _ => some ([VErr.notDict], [])

end Validator

/-! ## Concrete fixtures used by the claim theorems -/

/-- A zone document with no records at all. -/
def apexZone : ZoneData := { zone_name := "example.com", records := [] }

/-- A live A record sitting at the zone apex. -/
def apexLive : Cloudflare.LiveRecord :=
  { type := "A", name := "example.com", id := "r1", content := some "1.2.3.4" }

/-- A live TXT record on an ACME-challenge name. -/
def acmeLive : Cloudflare.LiveRecord :=
  { type := "TXT", name := "_acme-challenge.example.com", id := "r2", content := some "token" }

/-- A zone whose only record is a TUNNEL record, with a `tunnel` mapping and
no `values`. -/
def tunnelZone : ZoneData :=
  { zone_name := "example.com",
    records := [{ type := "TUNNEL", name := "home",
                  tunnel := some { name := "home-tunnel", service := "http://localhost:8080" } }] }

/-- The record type carried by a Cloudflare identity key (the second
component of the Python tuple). -/
def Cloudflare.CFKey.rtype : Cloudflare.CFKey → String
  | Cloudflare.CFKey.mx _ t _ _ => t
  | Cloudflare.CFKey.std _ t _ => t

/-- Two live Route53 record sets carry the same identity when they agree on
the three fields that enter the lookup key — their contents may differ. -/
def Route53.sameIdentity (r s : Route53.LiveRecord) : Prop :=
  r.recName = s.recName ∧ r.recType = s.recType ∧ r.setIdentifier = s.setIdentifier

/-- A zone defining two MX entries under the apex name. -/
def mxZoneBoth : ZoneData :=
  { zone_name := "example.com",
    records := [{ type := "MX", name := "example.com",
                  mx_records := [{ priority := 10, value := "mx1.example.com" },
                                 { priority := 20, value := "mx2.example.com" }] }] }

/-- The same zone with the priority-20 entry removed from the definition. -/
def mxZoneOne : ZoneData :=
  { zone_name := "example.com",
    records := [{ type := "MX", name := "example.com",
                  mx_records := [{ priority := 10, value := "mx1.example.com" }] }] }

/-- The live MX record corresponding to the priority-10 entry. -/
def mxLive1 : Cloudflare.LiveRecord :=
  { type := "MX", name := "example.com", id := "m1",
    content := some "mx1.example.com", priority := some 10 }

/-- The live MX record corresponding to the priority-20 entry. -/
def mxLive2 : Cloudflare.LiveRecord :=
  { type := "MX", name := "example.com", id := "m2",
    content := some "mx2.example.com", priority := some 20 }

/-- A zone desiring an unquoted SPF TXT value. -/
def spfZone : ZoneData :=
  { zone_name := "example.com",
    records := [{ type := "TXT", name := "example.com",
                  values := ["v=spf1 include:_spf.example.com ~all"] }] }

/-- The corresponding live TXT record as Cloudflare returns it, with the
content wrapped in one pair of double quotes. -/
def spfLiveQuoted : Cloudflare.LiveRecord :=
  { type := "TXT", name := "example.com", id := "t1",
    content := some "\"v=spf1 include:_spf.example.com ~all\"" }

/-- A zone whose desired TXT value is itself wrapped in double quotes. -/
def quotedDesiredZone : ZoneData :=
  { zone_name := "example.com",
    records := [{ type := "TXT", name := "example.com", values := ["\"v=spf1\""] }] }

/-- A live TXT record with the same value unquoted. -/
def spfLivePlain : Cloudflare.LiveRecord :=
  { type := "TXT", name := "example.com", id := "t2", content := some "v=spf1" }

/-- A live NS record (as a provider would report one at the apex). -/
def nsLive : Cloudflare.LiveRecord :=
  { type := "NS", name := "example.com", id := "n1", content := some "ns1.example.com" }

/-- An otherwise-valid route53 zone document carrying a `nameservers` field
that is an empty list. -/
def nsEmptyDoc : Validator.YVal :=
  Validator.YVal.dict
    [("zone_name", Validator.YVal.str "example.com"),
     ("provider", Validator.YVal.str "route53"),
     ("nameservers", Validator.YVal.list []),
     ("records", Validator.YVal.list [])]

/-- A route53-only zone document whose single record is a TXT record with
`proxied: true`. -/
def proxiedTxtRoute53Doc : Validator.YVal :=
  Validator.YVal.dict
    [("zone_name", Validator.YVal.str "example.com"),
     ("provider", Validator.YVal.str "route53"),
     ("records", Validator.YVal.list
       [Validator.YVal.dict
         [("type", Validator.YVal.str "TXT"),
          ("name", Validator.YVal.str "x"),
          ("proxied", Validator.YVal.bool true)]])]

/-- A Cloudflare zone document whose single record is a TXT record with
`proxied: true`. -/
def proxiedTxtCloudflareDoc : Validator.YVal :=
  Validator.YVal.dict
    [("zone_name", Validator.YVal.str "example.com"),
     ("provider", Validator.YVal.str "cloudflare"),
     ("records", Validator.YVal.list
       [Validator.YVal.dict
         [("type", Validator.YVal.str "TXT"),
          ("name", Validator.YVal.str "x"),
          ("proxied", Validator.YVal.bool true)]])]

/-- A Cloudflare zone document whose single record is a CNAME record with
`proxied: true`. -/
def proxiedCnameCloudflareDoc : Validator.YVal :=
  Validator.YVal.dict
    [("zone_name", Validator.YVal.str "example.com"),
     ("provider", Validator.YVal.str "cloudflare"),
     ("records", Validator.YVal.list
       [Validator.YVal.dict
         [("type", Validator.YVal.str "CNAME"),
          ("name", Validator.YVal.str "x"),
          ("proxied", Validator.YVal.bool true)]])]

/-! ## Helper lemmas -/

namespace Cloudflare

/-- A non-NS/SOA live record is in the deletion list iff it is live and its
key is not among the defined keys. -/
theorem mem_toDelete_iff (defined : List CFKey) (live : List LiveRecord) (r : LiveRecord)
    (h : ¬(pyUpper r.type = "NS" ∨ pyUpper r.type = "SOA")) :
    r ∈ toDelete defined live ↔ r ∈ live ∧ liveKey r ∉ defined := by
  rw [not_or] at h
  simp only [toDelete, should_delete, List.mem_filter]
  have h1 : (pyUpper r.type == "NS" || pyUpper r.type == "SOA") = false := by
    simp only [Bool.or_eq_false_iff, beq_eq_false_iff_ne, ne_eq]
    exact ⟨h.1, h.2⟩
  rw [h1]
  simp only [Bool.false_eq_true, if_false]
  split <;> simp_all

/-- A non-NS/SOA live record is in the satisfied list iff it is live and its
key is among the defined keys. -/
theorem mem_satisfied_iff (defined : List CFKey) (live : List LiveRecord) (r : LiveRecord)
    (h : ¬(pyUpper r.type = "NS" ∨ pyUpper r.type = "SOA")) :
    r ∈ satisfied defined live ↔ r ∈ live ∧ liveKey r ∈ defined := by
  rw [not_or] at h
  simp only [satisfied, List.mem_filter]
  have h1 : (pyUpper r.type == "NS" || pyUpper r.type == "SOA") = false := by
    simp only [Bool.or_eq_false_iff, beq_eq_false_iff_ne, ne_eq]
    exact ⟨h.1, h.2⟩
  rw [h1]
  simp

/-- Membership in the defined-key set comes from some record of the zone. -/
theorem mem_load_defined_records_iff (zone_data : ZoneData) (k : CFKey) :
    k ∈ load_defined_records zone_data ↔
      ∃ rec ∈ zone_data.records, k ∈ recordKeys zone_data.zone_name rec := by
  simp [load_defined_records, List.mem_flatMap]

end Cloudflare

namespace Route53

/-- A non-NS/SOA live record is in the deletion list iff it is live and its
key is not among the defined keys. -/
theorem r53_mem_toDelete_iff (defined : List (String × String × Option String))
    (live : List LiveRecord) (r : LiveRecord)
    (h : ¬(r.recType = "NS" ∨ r.recType = "SOA")) :
    r ∈ toDelete defined live ↔ r ∈ live ∧ liveKey r ∉ defined := by
  rw [not_or] at h
  simp only [toDelete, should_delete, List.mem_filter]
  have h1 : (r.recType == "NS" || r.recType == "SOA") = false := by
    simp only [Bool.or_eq_false_iff, beq_eq_false_iff_ne, ne_eq]
    exact ⟨h.1, h.2⟩
  rw [h1]
  simp only [Bool.false_eq_true, if_false]
  split <;> simp_all

end Route53

/-! ## Claim C1 — apex protection -/

/-- Claim C1 counterexample: with an empty desired set, a live A record whose
name equals the zone name exactly IS in the deletion output of the Cloudflare
reconciliation — the code has no apex protection. -/
theorem C1_counterexample :
    apexLive.name = apexZone.zone_name ∧
    apexLive ∈ Cloudflare.toDelete (Cloudflare.load_defined_records apexZone) [apexLive] := by
  decide

/-- Claim C1 (amended): a live record whose name equals the zone name gets no
special treatment in either cleanup script — a non-NS/SOA live record (apex
or not) is in `toDelete` exactly when its identity key is absent from the
desired set, so an apex record absent from the desired set IS deleted. -/
theorem C1_amended_no_apex_protection :
    (∀ (zone_name : String) (defined : List Cloudflare.CFKey)
        (live : List Cloudflare.LiveRecord) (r : Cloudflare.LiveRecord),
        r.name = zone_name → ¬(pyUpper r.type = "NS" ∨ pyUpper r.type = "SOA") →
        (r ∈ Cloudflare.toDelete defined live ↔ r ∈ live ∧ Cloudflare.liveKey r ∉ defined)) ∧
    (∀ (zone_name : String) (defined : List (String × String × Option String))
        (live : List Route53.LiveRecord) (r : Route53.LiveRecord),
        Route53.liveName r = zone_name → ¬(r.recType = "NS" ∨ r.recType = "SOA") →
        (r ∈ Route53.toDelete defined live ↔ r ∈ live ∧ Route53.liveKey r ∉ defined)) := by
  constructor
  · intro zone_name defined live r _ hns
    exact Cloudflare.mem_toDelete_iff defined live r hns
  · intro zone_name defined live r _ hns
    exact Route53.r53_mem_toDelete_iff defined live r hns

/-- Claim C1 witness: the amended theorem applied at the apex A record with
an empty desired set, in both directions of the reconciliation. -/
theorem C1_witness :
    apexLive ∈ Cloudflare.toDelete [] [apexLive] ∧
    ({ recType := "A", recName := "example.com." } : Route53.LiveRecord) ∈
      Route53.toDelete [] [{ recType := "A", recName := "example.com." }] := by
  constructor
  · exact (C1_amended_no_apex_protection.1 "example.com" [] [apexLive] apexLive
      (by decide) (by decide)).mpr ⟨by decide, by decide⟩
  · exact (C1_amended_no_apex_protection.2 "example.com" []
      [{ recType := "A", recName := "example.com." }] { recType := "A", recName := "example.com." }
      (by decide) (by decide)).mpr ⟨by decide, by decide⟩

/-! ## Claim C2 — ownership-marker and infrastructure protection -/

/-- Claim C2 counterexample: a live TXT record on an ACME-challenge name
(`_acme-challenge.example.com`, one of the protected-infrastructure markers
the claim lists) with no matching desired key IS in the deletion output — the
code classifies nothing as protected. -/
theorem C2_counterexample :
    acmeLive.type = "TXT" ∧
    acmeLive ∈ Cloudflare.toDelete (Cloudflare.load_defined_records apexZone) [acmeLive] := by
  decide

/-- Claim C2 (amended): TXT records receive no ownership-marker or
protected-infrastructure exemption — a live TXT record, whatever its name
(ownership-marker names, ACME challenge, DMARC and DKIM names included), is
in `toDelete` exactly when its identity key is absent from the desired set. -/
theorem C2_amended_no_marker_protection
    (defined : List Cloudflare.CFKey) (live : List Cloudflare.LiveRecord)
    (r : Cloudflare.LiveRecord) (htxt : pyUpper r.type = "TXT") :
    r ∈ Cloudflare.toDelete defined live ↔ r ∈ live ∧ Cloudflare.liveKey r ∉ defined := by
  apply Cloudflare.mem_toDelete_iff
  rw [htxt]
  decide

/-- Claim C2 witness: the amended theorem applied at the ACME-challenge TXT
record with an empty desired set. -/
theorem C2_witness :
    acmeLive ∈ Cloudflare.toDelete [] [acmeLive] :=
  (C2_amended_no_marker_protection [] [acmeLive] acmeLive (by decide)).mpr
    ⟨by decide, by decide⟩

/-! ## Claim C3 — TUNNEL key tracking -/

/-- Claim C3 counterexample: for a zone whose single record is a TUNNEL
record (tunnel name `home-tunnel`), the desired-key expansion emits NO keys
at all — in particular not the identity key `(fqdn, "TUNNEL", tunnel.name)`
the claim promises; `load_defined_records` never reads the `tunnel` mapping. -/
theorem C3_counterexample :
    Cloudflare.load_defined_records tunnelZone = [] ∧
    Cloudflare.CFKey.std "home.example.com" "TUNNEL" (some "home-tunnel") ∉
      Cloudflare.load_defined_records tunnelZone := by
  decide

/-- Claim C3 (amended): a TUNNEL record goes through the generic
per-`values` branch of the expansion: it emits one key
`(fqdn, "TUNNEL", value)` per entry of its `values` list, and hence no key at
all when it has no `values` — its tunnel name never enters any key, so a live
record backing the tunnel is matched only if it appears as a literal value. -/
theorem C3_amended_tunnel_emits_value_keys (zone_name : String) (rec : RecYaml)
    (h : pyUpper rec.type = "TUNNEL") :
    Cloudflare.recordKeys zone_name rec =
      rec.values.map (fun v =>
        Cloudflare.CFKey.std (resolveFQDN rec.name zone_name) "TUNNEL" (some v)) := by
  simp only [Cloudflare.recordKeys, h]
  rw [if_neg (by decide), if_neg (by decide)]

/-- Claim C3 witness: the amended theorem applied at the TUNNEL record of the
fixture zone, whose empty `values` list yields the empty key list. -/
theorem C3_witness :
    Cloudflare.recordKeys "example.com"
      { type := "TUNNEL", name := "home",
        tunnel := some { name := "home-tunnel", service := "http://localhost:8080" } } = [] :=
  C3_amended_tunnel_emits_value_keys "example.com" _ (by decide)

/-! ## Claim C4 — NS/SOA exclusion invariant -/

/-- Claim C4: NS and SOA never enter the desired-key sets of either cleanup
script, and live NS/SOA records are discarded before classification — they
are neither deleted nor counted as satisfied. -/
theorem C4_ns_soa_exclusion :
    (∀ (zone_data : ZoneData) (k : Cloudflare.CFKey),
        k ∈ Cloudflare.load_defined_records zone_data → k.rtype ≠ "NS" ∧ k.rtype ≠ "SOA") ∧
    (∀ (zone_data : ZoneData) (k : String × String × Option String),
        k ∈ Route53.load_defined_records zone_data → k.2.1 ≠ "NS" ∧ k.2.1 ≠ "SOA") ∧
    (∀ (defined : List Cloudflare.CFKey) (live : List Cloudflare.LiveRecord)
        (r : Cloudflare.LiveRecord), pyUpper r.type = "NS" ∨ pyUpper r.type = "SOA" →
        r ∉ Cloudflare.toDelete defined live ∧ r ∉ Cloudflare.satisfied defined live) ∧
    (∀ (defined : List (String × String × Option String)) (live : List Route53.LiveRecord)
        (r : Route53.LiveRecord), r.recType = "NS" ∨ r.recType = "SOA" →
        r ∉ Route53.toDelete defined live) := by
  refine ⟨?_, ?_, ?_, ?_⟩
  · intro zone_data k hk
    rw [Cloudflare.mem_load_defined_records_iff] at hk
    obtain ⟨rec, -, hk⟩ := hk
    simp only [Cloudflare.recordKeys] at hk
    split at hk
    · simp at hk
    · rename_i hcond
      have hns : pyUpper rec.type ≠ "NS" ∧ pyUpper rec.type ≠ "SOA" := by
        simpa [not_or] using hcond
      split at hk
      · rcases List.mem_map.mp hk with ⟨mx, -, rfl⟩
        simpa [Cloudflare.CFKey.rtype] using hns
      · rcases List.mem_map.mp hk with ⟨v, -, rfl⟩
        simpa [Cloudflare.CFKey.rtype] using hns
  · intro zone_data k hk
    simp only [Route53.load_defined_records, List.mem_flatMap] at hk
    obtain ⟨rec, -, hk⟩ := hk
    split at hk
    · simp at hk
    · rename_i hcond
      have hns : pyUpper rec.type ≠ "NS" ∧ pyUpper rec.type ≠ "SOA" := by
        simpa [not_or] using hcond
      simp only [List.mem_singleton] at hk
      subst hk
      simpa using hns
  · intro defined live r h
    constructor
    · intro hmem
      rw [Cloudflare.toDelete, List.mem_filter] at hmem
      have hd := hmem.2
      simp only [Cloudflare.should_delete] at hd
      rcases h with h | h <;> rw [h] at hd <;> simp at hd
    · intro hmem
      rw [Cloudflare.satisfied, List.mem_filter] at hmem
      have hd := hmem.2
      rcases h with h | h <;> rw [h] at hd <;> simp at hd
  · intro defined live r h
    intro hmem
    rw [Route53.toDelete, List.mem_filter] at hmem
    have hd := hmem.2
    simp only [Route53.should_delete] at hd
    rcases h with h | h <;> rw [h] at hd <;> simp at hd

/-- Claim C4 witness: the invariant applied to a concrete MX key of each
desired set and to a live NS record in both reconciliations. -/
theorem C4_witness :
    ((Cloudflare.CFKey.mx "example.com" "MX" (some 10) (some "mx1.example.com")).rtype ≠ "NS" ∧
      (Cloudflare.CFKey.mx "example.com" "MX" (some 10) (some "mx1.example.com")).rtype ≠ "SOA") ∧
    (("example.com", "MX", (none : Option String)).2.1 ≠ "NS" ∧
      ("example.com", "MX", (none : Option String)).2.1 ≠ "SOA") ∧
    (nsLive ∉ Cloudflare.toDelete [] [nsLive] ∧ nsLive ∉ Cloudflare.satisfied [] [nsLive]) ∧
    ({ recType := "NS", recName := "example.com." } : Route53.LiveRecord) ∉
      Route53.toDelete [] [{ recType := "NS", recName := "example.com." }] := by
  refine ⟨?_, ?_, ?_, ?_⟩
  · exact C4_ns_soa_exclusion.1 mxZoneOne _ (by decide)
  · exact C4_ns_soa_exclusion.2.1 mxZoneOne _ (by decide)
  · exact C4_ns_soa_exclusion.2.2.1 [] [nsLive] nsLive (by decide)
  · exact C4_ns_soa_exclusion.2.2.2 [] [{ recType := "NS", recName := "example.com." }]
      { recType := "NS", recName := "example.com." } (by decide)

/-! ## Claim C5 — MX independence -/

/-- Claim C5: every `mx_records` entry of an MX record yields its own desired
key `(fqdn, "MX", priority, value)`; on the spec scenario
(`mx1`/priority 10, `mx2`/priority 20), the two keys are distinct, and after
removing the priority-20 entry from the definition, reconciliation with both
records still live deletes exactly the removed one and keeps the remaining
one as satisfied. -/
theorem C5_mx_independence :
    (∀ (zone_data : ZoneData) (rec : RecYaml) (mx : MxEntry),
        rec ∈ zone_data.records → pyUpper rec.type = "MX" → mx ∈ rec.mx_records →
        Cloudflare.CFKey.mx (resolveFQDN rec.name zone_data.zone_name) "MX"
          (some mx.priority) (some mx.value) ∈ Cloudflare.load_defined_records zone_data) ∧
    Cloudflare.load_defined_records mxZoneBoth =
      [Cloudflare.CFKey.mx "example.com" "MX" (some 10) (some "mx1.example.com"),
       Cloudflare.CFKey.mx "example.com" "MX" (some 20) (some "mx2.example.com")] ∧
    Cloudflare.toDelete (Cloudflare.load_defined_records mxZoneOne) [mxLive1, mxLive2] =
      [mxLive2] ∧
    Cloudflare.satisfied (Cloudflare.load_defined_records mxZoneOne) [mxLive1, mxLive2] =
      [mxLive1] := by
  refine ⟨?_, by decide, by decide, by decide⟩
  intro zone_data rec mx hrec htype hmx
  rw [Cloudflare.mem_load_defined_records_iff]
  refine ⟨rec, hrec, ?_⟩
  simp only [Cloudflare.recordKeys, htype]
  rw [if_neg (by decide), if_pos (by decide)]
  exact List.mem_map.mpr ⟨mx, hmx, rfl⟩

/-- Claim C5 witness: the per-entry key emission applied at the priority-20
entry of the two-entry fixture zone. -/
theorem C5_witness :
    Cloudflare.CFKey.mx "example.com" "MX" (some 20) (some "mx2.example.com") ∈
      Cloudflare.load_defined_records mxZoneBoth := by
  have h := C5_mx_independence.1 mxZoneBoth
    { type := "MX", name := "example.com",
      mx_records := [{ priority := 10, value := "mx1.example.com" },
                     { priority := 20, value := "mx2.example.com" }] }
    { priority := 20, value := "mx2.example.com" } (by decide) (by decide) (by decide)
  simpa using h

/-! ## Claim C6 — TXT quote normalization -/

/-- Claim C6 counterexample: quote stripping is NOT applied to desired
values — with desired TXT value `"v=spf1"` (quotes included) and live
content `v=spf1`, the live record is a deletion candidate, not satisfied,
refuting the symmetric half of the claim. -/
theorem C6_counterexample :
    spfLivePlain ∈
      Cloudflare.toDelete (Cloudflare.load_defined_records quotedDesiredZone) [spfLivePlain] ∧
    spfLivePlain ∉
      Cloudflare.satisfied (Cloudflare.load_defined_records quotedDesiredZone) [spfLivePlain] := by
  decide

/-- Claim C6 (amended): only the live TXT content has one pair of enclosing
double quotes stripped before comparison: a quoted live content always strips
to its unquoted core (so the spec SPF example is satisfied, not deleted),
while a quoted desired value compared against unquoted live content does not
match and the live record is deleted. -/
theorem C6_amended_live_side_quote_stripping :
    (∀ v : String, Cloudflare.stripTxtQuotes "TXT" (some ("\"" ++ v ++ "\"")) = some v) ∧
    Cloudflare.toDelete (Cloudflare.load_defined_records spfZone) [spfLiveQuoted] = [] ∧
    Cloudflare.satisfied (Cloudflare.load_defined_records spfZone) [spfLiveQuoted] =
      [spfLiveQuoted] ∧
    Cloudflare.toDelete (Cloudflare.load_defined_records quotedDesiredZone) [spfLivePlain] =
      [spfLivePlain] := by
  refine ⟨?_, by decide, by decide, by decide⟩
  intro v
  have htl : ("\"" ++ v ++ "\"").toList = ('"' :: v.toList) ++ ['"'] := by
    simp [String.toList, String.data_append]
  have hlast : (('"' : Char) :: (v.data ++ ['"'])).getLast? = some '"' := by
    rw [← List.cons_append]
    exact List.getLast?_concat _
  simp only [Cloudflare.stripTxtQuotes, htl, List.cons_append]
  simp [hlast, List.dropLast_concat]

/-- Claim C6 witness: the stripping law applied at the SPF value of the spec
scenario. -/
theorem C6_witness :
    Cloudflare.stripTxtQuotes "TXT" (some "\"v=spf1 include:_spf.example.com ~all\"") =
      some "v=spf1 include:_spf.example.com ~all" :=
  C6_amended_live_side_quote_stripping.1 "v=spf1 include:_spf.example.com ~all"

/-! ## Claim C7 — FQDN resolution -/

/-- Claim C7 counterexample: in the cleanup scripts, the literal name `@`
does NOT resolve to the zone apex — `resolveFQDN` has no `@` rule and joins
it like any relative name. -/
theorem C7_counterexample :
    resolveFQDN "@" "example.com" = "@.example.com" ∧
    "@.example.com" ≠ "example.com" := by
  decide

/-- Claim C7 (amended): `resolveFQDN` (the cleanup scripts) keeps a name that
equals the zone name or ends with `".<zone_name>"` and joins every other
name, with no `@` rule — `@` becomes `"@.<zone_name>"`, while `*` joins to
the wildcard apex; the apex interpretation of `@` exists only in the
security-scanner name construction, which in turn re-joins absolute names. -/
theorem C7_amended_fqdn_resolution :
    (∀ name zone_name : String,
        (name = zone_name ∨ strEndsWith name ("." ++ zone_name) = true) →
        resolveFQDN name zone_name = name) ∧
    (∀ name zone_name : String,
        name ≠ zone_name → strEndsWith name ("." ++ zone_name) = false →
        resolveFQDN name zone_name = name ++ "." ++ zone_name) ∧
    resolveFQDN "www" "example.com" = "www.example.com" ∧
    resolveFQDN "example.com" "example.com" = "example.com" ∧
    resolveFQDN "@" "example.com" = "@.example.com" ∧
    resolveFQDN "*" "example.com" = "*.example.com" ∧
    scanFullName "@" "example.com" = "example.com" ∧
    scanFullName "*" "example.com" = "*.example.com" ∧
    scanFullName "www.example.com" "example.com" = "www.example.com.example.com" := by
  refine ⟨?_, ?_, by decide, by decide, by decide, by decide, by decide, by decide, by decide⟩
  · intro name zone_name h
    rcases h with h | h <;> simp [resolveFQDN, h]
  · intro name zone_name h1 h2
    simp [resolveFQDN, h1, h2]

/-- Claim C7 witness: the two branches applied at an absolute and at a
relative name. -/
theorem C7_witness :
    resolveFQDN "www.example.com" "example.com" = "www.example.com" ∧
    resolveFQDN "www" "example.com" = "www.example.com" := by
  constructor
  · exact C7_amended_fqdn_resolution.1 "www.example.com" "example.com" (Or.inr (by decide))
  · exact C7_amended_fqdn_resolution.2.1 "www" "example.com" (by decide) (by decide)

/-! ## Claim C8 — proxied validation -/

/-- Claim C8 counterexample: `proxied: true` on a TXT record in a zone whose
providers do NOT include cloudflare yields no error at all — only the
ignored-field warning — because the non-proxiable-type check sits behind the
Cloudflare-zone branch; this refutes the unconditional error the claim
states. -/
theorem C8_counterexample :
    Validator.validate_zone_file "example.com.yml" [] proxiedTxtRoute53Doc =
      some ([], [Validator.VWarn.proxiedNotCloudflare 0]) := by
  decide

/-- Claim C8 (amended): a non-boolean `proxied` is always an error; a boolean
`proxied` on a non-Cloudflare zone is only a warning, even when it is `true`
on a non-proxiable type; the non-proxiable-type error fires exactly on
Cloudflare zones with `proxied: true` and a type outside `{A, AAAA, CNAME}`
— in particular `proxied: true` with type TXT errors on a Cloudflare zone
while the same flag on CNAME is accepted. -/
theorem C8_amended_proxied_validation :
    (∀ (uc : Bool) (i : Nat) (rt : String) (entries : List (String × Validator.YVal))
        (p : Validator.YVal), entries.lookup "proxied" = some p →
        (Validator.pyIsBool p = false →
          Validator.proxiedChecks uc i rt entries = ([Validator.VErr.proxiedNotBool i], [])) ∧
        (Validator.pyIsBool p = true → uc = false →
          Validator.proxiedChecks uc i rt entries = ([], [Validator.VWarn.proxiedNotCloudflare i])) ∧
        (p = Validator.YVal.bool true → uc = true →
          rt ∉ Validator.PROXIABLE_RECORD_TYPES →
          Validator.proxiedChecks uc i rt entries = ([Validator.VErr.proxiedNonProxiable i], [])) ∧
        (p = Validator.YVal.bool true → uc = true →
          rt ∈ Validator.PROXIABLE_RECORD_TYPES →
          Validator.proxiedChecks uc i rt entries = ([], [])) ∧
        (p = Validator.YVal.bool false → uc = true →
          Validator.proxiedChecks uc i rt entries = ([], []))) ∧
    Validator.validate_zone_file "example.com.yml" [] proxiedTxtCloudflareDoc =
      some ([Validator.VErr.proxiedNonProxiable 0], []) ∧
    Validator.validate_zone_file "example.com.yml" [] proxiedCnameCloudflareDoc =
      some ([], []) := by
  refine ⟨?_, by decide, by decide⟩
  intro uc i rt entries p hp
  refine ⟨?_, ?_, ?_, ?_, ?_⟩
  · intro h1
    simp [Validator.proxiedChecks, hp, h1]
  · intro h1 h2
    simp [Validator.proxiedChecks, hp, h1, h2]
  · intro h1 h2 h3
    subst h1 h2
    simp [Validator.proxiedChecks, hp, Validator.pyIsBool, h3]
  · intro h1 h2 h3
    subst h1 h2
    simp [Validator.proxiedChecks, hp, Validator.pyIsBool, h3]
  · intro h1 h2
    subst h1 h2
    simp [Validator.proxiedChecks, hp, Validator.pyIsBool]

/-- Claim C8 witness: the per-record characterization applied at a TXT
record with `proxied: true` on a non-Cloudflare zone. -/
theorem C8_witness :
    Validator.proxiedChecks false 0 "TXT" [("proxied", Validator.YVal.bool true)] =
      ([], [Validator.VWarn.proxiedNotCloudflare 0]) :=
  ((C8_amended_proxied_validation.1 false 0 "TXT" [("proxied", Validator.YVal.bool true)]
    (Validator.YVal.bool true) rfl).2.1) (by decide) rfl

/-! ## Claim C9 — nameservers validation -/

/-- Claim C9 counterexample: a zone document with `nameservers` present as an
empty list — a violation the claim says must be an error — validates with no
errors at all: `validate_zone_file` contains no nameservers check. -/
theorem C9_counterexample :
    Validator.yGet? nsEmptyDoc "nameservers" = some (Validator.YVal.list []) ∧
    Validator.validate_zone_file "example.com.yml" [] nsEmptyDoc = some ([], []) := by
  exact ⟨rfl, by decide⟩

/-- Claim C9 (amended): validation never reads the `nameservers` field — the
result on any document is unchanged by adding, removing or altering a
`nameservers` entry, so no nameservers shape is ever an error. -/
theorem C9_amended_nameservers_ignored :
    ∀ (file_name : String) (global_tunnels : List (String × Validator.YVal))
      (entries : List (String × Validator.YVal)) (v : Validator.YVal),
      Validator.validate_zone_file file_name global_tunnels
          (Validator.YVal.dict (("nameservers", v) :: entries)) =
        Validator.validate_zone_file file_name global_tunnels (Validator.YVal.dict entries) := by
  intro fn gt entries v
  simp [Validator.validate_zone_file, Validator.yGet?, List.lookup]

/-! ## Claim C10 — Route53 deletion ignores record content -/

/-- Claim C10: the Route53 deletion decision is a function of
`(name, type, set identifier)` alone: records with the same identity get the
same decision whatever their contents, snapshots that differ only in content
select the same identities for deletion, and a live record whose key matches
a defined record is never deleted. -/
theorem C10_content_independent_deletion :
    (∀ (defined : List (String × String × Option String)) (r s : Route53.LiveRecord),
        Route53.sameIdentity r s →
        Route53.should_delete defined r = Route53.should_delete defined s) ∧
    (∀ (defined : List (String × String × Option String))
        (live live' : List Route53.LiveRecord),
        List.Forall₂ Route53.sameIdentity live live' →
        (Route53.toDelete defined live).map Route53.liveKey =
          (Route53.toDelete defined live').map Route53.liveKey) ∧
    (∀ (defined : List (String × String × Option String)) (live : List Route53.LiveRecord)
        (r : Route53.LiveRecord), Route53.liveKey r ∈ defined →
        r ∉ Route53.toDelete defined live) := by
  have hkey : ∀ r s : Route53.LiveRecord, Route53.sameIdentity r s →
      Route53.liveKey r = Route53.liveKey s := by
    intro r s h
    obtain ⟨h1, h2, h3⟩ := h
    simp [Route53.liveKey, Route53.liveName, Route53.rstripDots, h1, h2, h3]
  have hdec : ∀ (defined : List (String × String × Option String)) (r s : Route53.LiveRecord),
      Route53.sameIdentity r s →
      Route53.should_delete defined r = Route53.should_delete defined s := by
    intro defined r s h
    simp only [Route53.should_delete, h.2.1, hkey r s h]
  refine ⟨hdec, ?_, ?_⟩
  · intro defined live live' hall
    induction hall with
    | nil => rfl
    | cons hpair htail ih =>
        rename_i r s rs ss
        simp only [Route53.toDelete, List.filter_cons]
        rw [hdec defined r s hpair]
        by_cases hc : Route53.should_delete defined s = true
        · simp only [hc, if_true, List.map_cons, hkey r s hpair]
          rw [show (List.filter (fun x => Route53.should_delete defined x) rs).map
                Route53.liveKey =
              (List.filter (fun x => Route53.should_delete defined x) ss).map
                Route53.liveKey from ih]
        · simp only [hc, if_false]
          exact ih
  · intro defined live r hk hmem
    rw [Route53.toDelete, List.mem_filter] at hmem
    have hd := hmem.2
    simp only [Route53.should_delete] at hd
    rw [if_neg] at hd
    · rw [if_pos hk] at hd
      exact Bool.false_ne_true hd
    · intro hns
      rw [if_pos hns] at hd
      exact Bool.false_ne_true hd

/-- Claim C10 witness: two snapshots of one A record differing only in
content select the same (empty) deletion set against a matching defined key,
and the record is not deleted. -/
theorem C10_witness :
    (Route53.toDelete [("www.example.com", "A", none)]
        [{ recType := "A", recName := "www.example.com.", resourceRecords := ["1.2.3.4"] }]).map
        Route53.liveKey =
      (Route53.toDelete [("www.example.com", "A", none)]
        [{ recType := "A", recName := "www.example.com.", resourceRecords := ["9.9.9.9"] }]).map
        Route53.liveKey ∧
    ({ recType := "A", recName := "www.example.com.",
       resourceRecords := ["1.2.3.4"] } : Route53.LiveRecord) ∉
      Route53.toDelete [("www.example.com", "A", none)]
        [{ recType := "A", recName := "www.example.com.", resourceRecords := ["1.2.3.4"] }] := by
  constructor
  · exact C10_content_independent_deletion.2.1 [("www.example.com", "A", none)]
      [{ recType := "A", recName := "www.example.com.", resourceRecords := ["1.2.3.4"] }]
      [{ recType := "A", recName := "www.example.com.", resourceRecords := ["9.9.9.9"] }]
      (List.Forall₂.cons ⟨rfl, rfl, rfl⟩ List.Forall₂.nil)
  · exact C10_content_independent_deletion.2.2 [("www.example.com", "A", none)]
      [{ recType := "A", recName := "www.example.com.", resourceRecords := ["1.2.3.4"] }]
      { recType := "A", recName := "www.example.com.", resourceRecords := ["1.2.3.4"] }
      (by decide)
